import Mathlib

/-!
Verification of the vegan-classification pipeline in
`scripts/livsmedel_db_clean.py`.

The script loads a nutritional spreadsheet with pandas, selects and renames a
fixed set of columns (`columns_to_keep`), derives a boolean `IsVegan` column by
applying `is_not_vegan` to every row, and writes the result to CSV.

The shallow embedding below models:
  * spreadsheet cell values (`PyVal`): a number, a missing value (pandas NaN),
    a text value, or a boolean (the derived `IsVegan` cell);
  * the relevant pieces of Python semantics the script relies on:
    `str(x)` (a missing value prints as "nan"), `str.lower()` (restricted to
    the character repertoire appearing in the script's data: ASCII plus the
    Swedish letters), the substring operator `in`, and the comparison `x > 0`
    (False for NaN, a TypeError for a text value);
  * the classifier `is_not_vegan` and the surrounding pipeline `run`
    (column selection raising a missing-column error at load time, per-row
    classification whose first raising row aborts the whole run).
-/

/-- A spreadsheet cell value as pandas hands it to the script: a float
(modelled as a rational), the missing-value marker NaN, a raw text cell, or a
boolean (only produced by the pipeline itself for the `IsVegan` column). -/
inductive PyVal where
  | num (q : ℚ)
  | nan
  | str (s : String)
  | bool (b : Bool)
deriving DecidableEq

/-- Errors the Python script can abort with: pandas raising a KeyError when a
selected column is absent (line 40), and the TypeError raised by
`cholesterol > 0` when the cell holds a text value (line 73). -/
inductive PipelineError where
  | missingColumn
  | typeError
deriving DecidableEq

/-- Python `str.lower()` on one character, for the character repertoire that
occurs in the script's keyword and category lists and in the claims' inputs:
ASCII letters plus the Swedish/French letters of the lists. -/
def pyLowerChar (c : Char) : Char :=
  if c.isUpper then Char.ofNat (c.toNat + 32)
  else if c = 'Å' then 'å'
  else if c = 'Ä' then 'ä'
  else if c = 'Ö' then 'ö'
  else if c = 'É' then 'é'
  else if c = 'È' then 'è'
  else c

/-- Python `s.lower()` (lines 69 and 70 of the script). -/
def pyLower (s : String) : String :=
  ⟨s.data.map pyLowerChar⟩

/-- Python `needle in hay` on strings: substring containment. -/
def pyIn (needle hay : String) : Bool :=
  decide (needle.data <:+: hay.data)

/-- Python `str(v)` for a cell value (lines 69 and 70 of the script apply it to
the Name and Category cells).  `str` of the pandas missing value NaN is the
three-letter string "nan".  The numeric branch renders the rational; the exact
decimal rendering CPython would use is immaterial here because a purely numeric
rendering contains no letters and hence matches no keyword. -/
def pyStrVal : PyVal → String
  | .num q => toString q
  | .nan => "nan"
  | .str s => s
  | .bool b => if b then "True" else "False"

/-- Python `v > 0` on a cell value (line 73 of the script): an ordinary
comparison for numbers, False for NaN (any comparison with NaN is False),
integer comparison for booleans, and a TypeError for a text value. -/
def pyGtZeroE : PyVal → Except PipelineError Bool
  | .num q => .ok (decide (0 < q))
  | .nan => .ok false
  | .str _ => .error PipelineError.typeError
  | .bool b => .ok b

/-- The script's `columns_to_keep` dict (lines 16-38): source-locale column
name to canonical field name, in source order. -/
def columns_to_keep : List (String × String) :=
  [("Livsmedelsnamn", "Name"),
   ("Gruppering", "Category"),
   ("Energi (kcal)", "Calories"),
   ("Protein (g)", "Protein"),
   ("Fett, totalt (g)", "Fat"),
   ("Kolhydrater, tillgängliga (g)", "Carbs"),
   ("Fibrer (g)", "Fiber"),
   ("Sockerarter, totalt (g)", "Sugar"),
   ("Tillsatt socker (g)", "AddedSugar"),
   ("Fullkorn totalt (g)", "WholeGrains"),
   ("Summa mättade fettsyror (g)", "SaturatedFat"),
   ("Summa enkelomättade fettsyror (g)", "MonounsaturatedFat"),
   ("Summa fleromättade fettsyror (g)", "PolyunsaturatedFat"),
   ("Kolesterol (mg)", "Cholesterol"),
   ("Vitamin D (µg)", "VitaminD"),
   ("Vitamin B12 (µg)", "VitaminB12"),
   ("Järn, Fe (mg)", "Iron"),
   ("Zink, Zn (mg)", "Zinc"),
   ("Kalcium, Ca (mg)", "Calcium"),
   ("Linolensyra C18:3 (g)", "Omega3"),
   ("Linolsyra C18:2 (g)", "Omega6")]

/-- The script's `non_vegan_categories` list (lines 48-51). -/
def non_vegan_categories : List String :=
  ["Kött", "Fisk", "Fågel", "Ägg", "Mjölk", "Ost", "Grädde", "Smör",
   "Inälvor", "Chark", "Korv", "Skaldjur"]

/-- The script's `non_vegan_keywords` list (lines 54-60). -/
def non_vegan_keywords : List String :=
  ["kyckling", "nöt", "gris", "lamm", "fisk", "lax", "torsk", "räkor",
   "kräftor", "mjölk", "ost", "smör", "grädde", "ägg", "honung",
   "gelatin", "vassle", "kasein", "yoghurt", "kvarg", "filmjölk",
   "crème fraiche", "ister", "talg", "skinka", "bacon", "lever", "blod",
   "ansjovis", "sardell", "kaviar"]

/-- The script's `vegan_exceptions` list (lines 63-66). -/
def vegan_exceptions : List String :=
  ["kokos", "havre", "soja", "mandel", "ris", "cashew", "jordnöt",
   "valnöt", "hassel", "pecan", "pista", "macadamia", "para", "kokosfett"]

/-- The three fields of a cleaned row that `is_not_vegan` reads. -/
structure Record where
  Name : PyVal
  Category : PyVal
  Cholesterol : PyVal
deriving DecidableEq

/-- Rule 2 of `is_not_vegan` (lines 77-80): some entry of
`non_vegan_categories`, lowercased, is a substring of the lowercased
category. -/
def categoryRuleHit (category : String) : Bool :=
  non_vegan_categories.any fun cat => pyIn (pyLower cat) category

/-- The body of the keyword loop of `is_not_vegan` (lines 84-97) for one
keyword: the keyword occurs in the lowercased name, and the match is not
suppressed, neither by an exception substring occurring in the name nor by the
special case for the homograph keyword "nöt" when the category mentions nuts
or seeds. -/
def keywordHit (keyword name category : String) : Bool :=
  pyIn keyword name &&
    !((vegan_exceptions.any fun exc => pyIn exc name) ||
      (keyword == "nöt" && (pyIn "nötter" category || pyIn "frö" category)))

/-- Rule 3 of `is_not_vegan` (lines 83-99): the keyword loop returns True as
soon as some keyword matches unsuppressed. -/
def keywordRuleHit (name category : String) : Bool :=
  non_vegan_keywords.any fun keyword => keywordHit keyword name category

/-- The script's `is_not_vegan` (lines 68-101).  Rule 1: a positive
cholesterol value (this comparison raises on a text-valued cell, aborting the
whole run); Rule 2: a non-vegan category substring; Rule 3: a non-vegan
keyword in the name, with exception handling; otherwise vegan. -/
def is_not_vegan (row : Record) : Except PipelineError Bool :=
  let name := pyLower (pyStrVal row.Name)
  let category := pyLower (pyStrVal row.Category)
  match pyGtZeroE row.Cholesterol with
  | .error e => .error e
  | .ok true => .ok true
  | .ok false =>
    if categoryRuleHit category then .ok true
    else if keywordRuleHit name category then .ok true
    else .ok false

/-- `IsVegan` for one row (line 102): the negation of `is_not_vegan`. -/
def classify (row : Record) : Except PipelineError Bool :=
  (is_not_vegan row).map fun b => !b

/-- One raw spreadsheet row: an association list from source column names to
cell values.  A column absent from the row reads as NaN (in pandas every row
has a cell, possibly NaN, for every column of the frame). -/
abbrev RawRow := List (String × PyVal)

/-- A data frame: the column names of the header and the rows. -/
structure Table where
  columns : List String
  rows : List RawRow

/-- Read the cell of column `c` from a row; absent cells read as NaN. -/
def getCell (r : RawRow) (c : String) : PyVal :=
  match r.find? (fun p => p.1 == c) with
  | some p => p.2
  | none => PyVal.nan

/-- The per-row effect of `df[list(columns_to_keep.keys())]` followed by the
rename (lines 40-41): keep exactly the mapped columns, in mapping order, under
their canonical names. -/
def cleanRowOf (r : RawRow) : RawRow :=
  columns_to_keep.map fun p => (p.2, getCell r p.1)

/-- Extract the fields `is_not_vegan` reads from a cleaned row. -/
def recordOf (r : RawRow) : Record :=
  { Name := getCell r "Name",
    Category := getCell r "Category",
    Cholesterol := getCell r "Cholesterol" }

/-- Clean one raw row and append the derived `IsVegan` cell (lines 40-41 and
102); propagates the TypeError of a text-valued cholesterol cell. -/
def processRow (r : RawRow) : Except PipelineError RawRow := do
  let cr := cleanRowOf r
  let nv ← is_not_vegan (recordOf cr)
  pure (cr ++ [("IsVegan", PyVal.bool (!nv))])

/-- Row-by-row traversal, stopping at the first raising row, as
`DataFrame.apply` does when the applied function raises. -/
def mapME {α β : Type} (f : α → Except PipelineError β) :
    List α → Except PipelineError (List β)
  | [] => .ok []
  | a :: as => do
      let b ← f a
      let bs ← mapME f as
      pure (b :: bs)

/-- The whole pipeline on an in-memory table (lines 40-106): selecting the
columns raises a missing-column error at load time if any required source
column is absent from the header; otherwise every row is cleaned and
classified in order, and the cleaned table (with the `IsVegan` column
appended) is the output written to CSV. -/
def run (t : Table) : Except PipelineError Table :=
  if columns_to_keep.all (fun p => t.columns.contains p.1) then
    match mapME processRow t.rows with
    | .error e => .error e
    | .ok rows => .ok { columns := columns_to_keep.map Prod.snd ++ ["IsVegan"], rows := rows }
  else
    .error PipelineError.missingColumn

/-- The rows that reach the output CSV: none when the run aborts. -/
def outputRows (t : Table) : List RawRow :=
  match run t with
  | .ok o => o.rows
  | .error _ => []

/-- The value of a successful computation, `none` on an error. -/
def okValue {α : Type} : Except PipelineError α → Option α
  | .ok b => some b
  | .error _ => none

/-- A well-formed sample table: all 21 required source columns in the header,
one row describing an apple. -/
def sampleTable : Table :=
  { columns := columns_to_keep.map Prod.fst,
    rows := [[("Livsmedelsnamn", PyVal.str "Äpple"),
              ("Gruppering", PyVal.str "Frukt"),
              ("Kolesterol (mg)", PyVal.num 0)]] }

/-- A table whose first row has a text value in the cholesterol column and
whose second row is well formed. -/
def malformedCholTable : Table :=
  { columns := columns_to_keep.map Prod.fst,
    rows := [[("Livsmedelsnamn", PyVal.str "Mjukost"),
              ("Gruppering", PyVal.str "Ost"),
              ("Kolesterol (mg)", PyVal.str "spår")],
             [("Livsmedelsnamn", PyVal.str "Äpple"),
              ("Gruppering", PyVal.str "Frukt"),
              ("Kolesterol (mg)", PyVal.num 0)]] }

/-! ## Helper lemmas -/

/-- If some exception substring occurs in the name, every keyword match is
suppressed, so the keyword rule as a whole does not fire. -/
theorem keywordRuleHit_eq_false_of_exception (name category : String)
    (h : (vegan_exceptions.any fun exc => pyIn exc name) = true) :
    keywordRuleHit name category = false := by
  simp only [keywordRuleHit, List.any_eq_false]
  intro k _
  simp [keywordHit, h]

/-- `is_not_vegan` on a record whose cholesterol comparison succeeds with
result `b`: the result is `b`, or else the category rule, or else the keyword
rule. -/
theorem is_not_vegan_eq_of_chol (row : Record) (b : Bool)
    (h : pyGtZeroE row.Cholesterol = .ok b) :
    is_not_vegan row =
      .ok (b || categoryRuleHit (pyLower (pyStrVal row.Category)) ||
        keywordRuleHit (pyLower (pyStrVal row.Name)) (pyLower (pyStrVal row.Category))) := by
  unfold is_not_vegan
  rw [h]
  cases b with
  | true => rfl
  | false =>
    by_cases hc : categoryRuleHit (pyLower (pyStrVal row.Category)) <;>
      by_cases hk : keywordRuleHit (pyLower (pyStrVal row.Name)) (pyLower (pyStrVal row.Category)) <;>
      simp [hc, hk]

/-! ## Claims -/

/-- Claim C1: a known strictly positive cholesterol value forces a non-vegan
classification regardless of the name and category cells, and an unknown
(NaN) cholesterol value does not fire the rule: the decision falls through to
the category rule and then the keyword rule. -/
theorem cholesterol_dominance :
    (∀ (name category : PyVal) (q : ℚ), 0 < q →
      classify { Name := name, Category := category, Cholesterol := PyVal.num q } =
        .ok false)
    ∧ (∀ (name category : PyVal),
      is_not_vegan { Name := name, Category := category, Cholesterol := PyVal.nan } =
        .ok (categoryRuleHit (pyLower (pyStrVal category)) ||
          keywordRuleHit (pyLower (pyStrVal name)) (pyLower (pyStrVal category)))) := by
  constructor
  · intro name category q hq
    simp [classify, is_not_vegan, pyGtZeroE, hq, Except.map]
  · intro name category
    have h := is_not_vegan_eq_of_chol
      { Name := name, Category := category, Cholesterol := PyVal.nan } false rfl
    simpa using h

/-- Witness for C1 at a concrete record with positive cholesterol. -/
theorem cholesterol_dominance_witness :
    classify { Name := PyVal.str "Ärtsoppa", Category := PyVal.str "Soppor",
               Cholesterol := PyVal.num 12 } = .ok false :=
  cholesterol_dominance.1 _ _ 12 (by norm_num)

/-- Claim C3: whenever any exception substring occurs in the (case-folded)
name, the keyword rule is suppressed; in particular "Kokosmjölk" with zero or
unknown cholesterol (and a category triggering no rule) is classified
vegan. -/
theorem exception_suppression :
    (∀ (name category : String),
      (vegan_exceptions.any fun exc => pyIn exc name) = true →
      keywordRuleHit name category = false)
    ∧ classify { Name := PyVal.str "Kokosmjölk", Category := PyVal.str "",
                 Cholesterol := PyVal.num 0 } = .ok true
    ∧ classify { Name := PyVal.str "Kokosmjölk", Category := PyVal.str "",
                 Cholesterol := PyVal.nan } = .ok true :=
  ⟨keywordRuleHit_eq_false_of_exception, rfl, rfl⟩

/-- Witness for C3 at a concrete name containing both the keyword "mjölk" and
the exception "soja". -/
theorem exception_suppression_witness :
    keywordRuleHit "sojamjölk" "" = false :=
  exception_suppression.1 "sojamjölk" "" rfl

/-- Claim C4: if the case-folded category contains any entry of the non-vegan
category list (and the cholesterol comparison does not raise), the record is
classified non-vegan whatever its name; in particular Tofu in category Kött
with unknown cholesterol is non-vegan. -/
theorem category_rule_short_circuit :
    (∀ (row : Record) (b : Bool),
      pyGtZeroE row.Cholesterol = .ok b →
      categoryRuleHit (pyLower (pyStrVal row.Category)) = true →
      is_not_vegan row = .ok true)
    ∧ classify { Name := PyVal.str "Tofu", Category := PyVal.str "Kött",
                 Cholesterol := PyVal.nan } = .ok false := by
  refine ⟨?_, rfl⟩
  intro row b hb hc
  rw [is_not_vegan_eq_of_chol row b hb, hc]
  simp

/-- Witness for C4 at a concrete record whose name even contains a vegan
exception substring: the category rule fires regardless. -/
theorem category_rule_short_circuit_witness :
    is_not_vegan { Name := PyVal.str "Sojakorv", Category := PyVal.str "Korv",
                   Cholesterol := PyVal.nan } = .ok true :=
  category_rule_short_circuit.1 _ false rfl rfl

/-- Claim C5: a match of the homograph keyword "nöt" is suppressed whenever
the case-folded category contains "nötter" or "frö"; concretely, Nötfärs in
category Kött is non-vegan, while Jordnötter in category Nötter och frön with
unknown or zero cholesterol is vegan. -/
theorem nut_homograph :
    (∀ (name category : String),
      (pyIn "nötter" category || pyIn "frö" category) = true →
      keywordHit "nöt" name category = false)
    ∧ classify { Name := PyVal.str "Nötfärs", Category := PyVal.str "Kött",
                 Cholesterol := PyVal.nan } = .ok false
    ∧ classify { Name := PyVal.str "Jordnötter", Category := PyVal.str "Nötter och frön",
                 Cholesterol := PyVal.nan } = .ok true
    ∧ classify { Name := PyVal.str "Jordnötter", Category := PyVal.str "Nötter och frön",
                 Cholesterol := PyVal.num 0 } = .ok true := by
  refine ⟨?_, rfl, rfl, rfl⟩
  intro name category h
  simp [keywordHit, h]

/-- Witness for C5: the "nöt" keyword match in "nötfärs" is suppressed when
the category is the nuts-and-seeds group. -/
theorem nut_homograph_witness :
    keywordHit "nöt" "nötfärs" "nötter och frön" = false :=
  nut_homograph.1 "nötfärs" "nötter och frön" rfl

/-- Claim C8: a missing (NaN) Name or Category cell yields exactly the
classification the empty string would yield, and the classifier never raises
because of such a cell: with a numeric or missing cholesterol cell it always
returns a boolean. -/
theorem null_name_category_as_empty :
    (∀ (category cholesterol : PyVal),
      is_not_vegan { Name := PyVal.nan, Category := category, Cholesterol := cholesterol } =
        is_not_vegan { Name := PyVal.str "", Category := category, Cholesterol := cholesterol })
    ∧ (∀ (name cholesterol : PyVal),
      is_not_vegan { Name := name, Category := PyVal.nan, Cholesterol := cholesterol } =
        is_not_vegan { Name := name, Category := PyVal.str "", Cholesterol := cholesterol })
    ∧ (∀ (name category : PyVal) (q : ℚ),
      (∃ b, is_not_vegan { Name := name, Category := category,
                           Cholesterol := PyVal.num q } = .ok b)
      ∧ (∃ b, is_not_vegan { Name := name, Category := category,
                             Cholesterol := PyVal.nan } = .ok b)) := by
  refine ⟨fun category cholesterol => rfl, fun name cholesterol => rfl, fun name category q => ?_⟩
  exact ⟨⟨_, is_not_vegan_eq_of_chol _ _ rfl⟩, ⟨_, is_not_vegan_eq_of_chol _ _ rfl⟩⟩

/-- Claim C10: the pork keyword "gris" can never fire the keyword rule,
because the plant exception "ris" is a substring of "gris" and hence occurs in
any name containing "gris", suppressing every keyword match; such a record is
non-vegan only through the cholesterol rule or the category rule. -/
theorem gris_keyword_never_fires :
    ∀ (row : Record) (b : Bool),
      pyIn "gris" (pyLower (pyStrVal row.Name)) = true →
      pyGtZeroE row.Cholesterol = .ok b →
      is_not_vegan row =
        .ok (b || categoryRuleHit (pyLower (pyStrVal row.Category))) := by
  intro row b hg hb
  have h1 : "ris".data <:+: "gris".data := by decide
  have h2 : "gris".data <:+: (pyLower (pyStrVal row.Name)).data := of_decide_eq_true hg
  have hris : pyIn "ris" (pyLower (pyStrVal row.Name)) = true := decide_eq_true (h1.trans h2)
  have hexc : (vegan_exceptions.any fun exc => pyIn exc (pyLower (pyStrVal row.Name))) = true :=
    List.any_eq_true.mpr ⟨"ris", by simp [vegan_exceptions], hris⟩
  rw [is_not_vegan_eq_of_chol row b hb, keywordRuleHit_eq_false_of_exception _ _ hexc]
  simp

/-- Witness for C10 at a concrete pork record whose category fires no rule. -/
theorem gris_keyword_never_fires_witness :
    is_not_vegan { Name := PyVal.str "Grisfärs", Category := PyVal.str "Måltider",
                   Cholesterol := PyVal.nan } =
      .ok (false || categoryRuleHit (pyLower (pyStrVal (PyVal.str "Måltider")))) :=
  gris_keyword_never_fires _ false rfl rfl

/-- Claim C9 (counterexample): the mapping table does not have 20 entries. -/
theorem mapping_table_not_twenty : ¬ (columns_to_keep.length = 20) := by decide

/-- Claim C9 (amended): the mapping table has exactly 21 entries, running
from Name to Omega6, and a cleaned row carries exactly the canonical fields in
mapping order, so every other source column is dropped. -/
theorem mapping_table_contract :
    columns_to_keep.length = 21
    ∧ (columns_to_keep.map Prod.snd).head? = some "Name"
    ∧ (columns_to_keep.map Prod.snd).getLast? = some "Omega6"
    ∧ ∀ (r : RawRow), (cleanRowOf r).map Prod.fst = columns_to_keep.map Prod.snd :=
  ⟨rfl, rfl, rfl, fun _ => rfl⟩

/-- Witness for C9 (amended) at a concrete one-cell row. -/
theorem mapping_table_contract_witness :
    (cleanRowOf [("Livsmedelsnamn", PyVal.str "Äpple")]).map Prod.fst =
      columns_to_keep.map Prod.snd :=
  mapping_table_contract.2.2.2 _

/-- Claim C2 (code behavior at the failing input): a text-valued cholesterol
cell makes the comparison of Rule 1 raise a TypeError instead of being coerced
to null; the raise propagates out of the per-row application and aborts the
whole run, so no output rows are produced even though the second row of the
table is well formed. -/
theorem malformed_cholesterol_aborts :
    is_not_vegan { Name := PyVal.str "Mjukost", Category := PyVal.str "Ost",
                   Cholesterol := PyVal.str "spår" } = .error PipelineError.typeError
    ∧ run malformedCholTable = .error PipelineError.typeError
    ∧ outputRows malformedCholTable = [] :=
  ⟨rfl, rfl, rfl⟩

/-- If every element of the list maps to a success, the traversal succeeds,
preserves the length, and its i-th output is the image of the i-th input. -/
theorem mapME_ok_of_forall {α β : Type} (f : α → Except PipelineError β) :
    ∀ (l : List α), (∀ a ∈ l, ∃ b, f a = .ok b) →
      ∃ l', mapME f l = .ok l' ∧ l'.length = l.length ∧
        ∀ i, l'.get? i = (l.get? i).bind fun a => okValue (f a) := by
  intro l
  induction l with
  | nil =>
    intro _
    exact ⟨[], rfl, rfl, fun i => by cases i <;> rfl⟩
  | cons a as ih =>
    intro h
    obtain ⟨b, hb⟩ := h a (List.mem_cons_self a as)
    obtain ⟨l', hl', hlen, hget⟩ := ih fun x hx => h x (List.mem_cons_of_mem a hx)
    refine ⟨b :: l', ?_, by simp [hlen], fun i => ?_⟩
    · simp only [mapME, hb, hl']
      rfl
    · cases i with
      | zero => simp [hb, okValue]
      | succ n => simpa using hget n

/-- Claim C6: if any required source column of the mapping table is absent
from the table header, the run aborts with the missing-column error and writes
zero output rows; the check is on the header alone, so it holds for arbitrary
row data, including rows that would themselves fail to classify. -/
theorem missing_column_aborts :
    ∀ (t : Table) (src dst : String), (src, dst) ∈ columns_to_keep →
      t.columns.contains src = false →
      run t = .error PipelineError.missingColumn ∧ outputRows t = [] := by
  intro t src dst hmem hcontains
  have hall : columns_to_keep.all (fun p => t.columns.contains p.1) = false := by
    rw [List.all_eq_false]
    exact ⟨(src, dst), hmem, by simp_all⟩
  have hrun : run t = .error PipelineError.missingColumn := by
    unfold run
    rw [hall]
    rfl
  exact ⟨hrun, by simp [outputRows, hrun]⟩

/-- Witness for C6: a header containing only the name column aborts the run. -/
theorem missing_column_aborts_witness :
    run { columns := ["Livsmedelsnamn"], rows := [] } = .error PipelineError.missingColumn
    ∧ outputRows { columns := ["Livsmedelsnamn"], rows := [] } = [] :=
  missing_column_aborts _ "Gruppering" "Category" (by decide) rfl

/-- Claim C7: on a table whose header has every required column and whose rows
all classify without raising, the run succeeds, the output has exactly as many
rows as the input, and output row i is the cleaned-and-classified image of
input row i: no filtering, deduplication or reordering happens. -/
theorem row_count_and_order :
    ∀ (t : Table),
      columns_to_keep.all (fun p => t.columns.contains p.1) = true →
      (∀ r ∈ t.rows, ∃ b, processRow r = .ok b) →
      ∃ out, run t = .ok out ∧ out.rows.length = t.rows.length ∧
        ∀ i, out.rows.get? i = (t.rows.get? i).bind fun r => okValue (processRow r) := by
  intro t hcols hrows
  obtain ⟨l', hl', hlen, hget⟩ := mapME_ok_of_forall processRow t.rows hrows
  refine ⟨{ columns := columns_to_keep.map Prod.snd ++ ["IsVegan"], rows := l' }, ?_, hlen, hget⟩
  unfold run
  rw [hcols, hl']
  rfl

/-- Witness for C7 on the one-row sample table. -/
theorem row_count_and_order_witness :
    ∃ out, run sampleTable = .ok out ∧ out.rows.length = sampleTable.rows.length ∧
      ∀ i, out.rows.get? i = (sampleTable.rows.get? i).bind fun r => okValue (processRow r) :=
  row_count_and_order sampleTable rfl (by
    intro r hr
    rw [show sampleTable.rows = [[("Livsmedelsnamn", PyVal.str "Äpple"),
      ("Gruppering", PyVal.str "Frukt"), ("Kolesterol (mg)", PyVal.num 0)]] from rfl,
      List.mem_singleton] at hr
    exact hr ▸ ⟨_, rfl⟩)

/-- Witness for C8 at a concrete category and cholesterol value. -/
theorem null_name_category_as_empty_witness :
    is_not_vegan { Name := PyVal.nan, Category := PyVal.str "Frukt",
                   Cholesterol := PyVal.num 0 } =
      is_not_vegan { Name := PyVal.str "", Category := PyVal.str "Frukt",
                     Cholesterol := PyVal.num 0 } :=
  null_name_category_as_empty.1 (PyVal.str "Frukt") (PyVal.num 0)
